import Mathlib

/-!
Verification development for the outfit-evaluator scoring and color
classification engine (`app/models/color_detector.py`,
`app/models/outfit_analyzer.py`, `app/config.py`).

Python floats are modelled as exact rationals (`ℚ`); machine pixel values
as `Nat`.  Fallible steps (extraction strategies, the external similarity
backend, exceptions escaping a wrapper body) are modelled with `Except` /
`Bool` inputs so that every caught-exception path of the source is an
explicit branch of the embedding.
-/

namespace OutfitEval

/-- `min(max(x, 0), 10)` as used throughout the scoring code. -/
def clamp (x : ℚ) : ℚ := min (max x 0) 10

/-- A color sample dict as produced by the extraction strategies:
`{'rgb': [...], 'name': ..., 'method': ..., 'percentage': ...}`.
Only the k-means strategy sets `percentage`; elsewhere the source reads it
back with `x.get('percentage', 0)`, so an absent field is modelled as `0`. -/
structure ColorSample where
  rgb : List Nat
  name : String
  method : String
  percentage : ℚ
deriving DecidableEq, Repr

/-- Modelled from OpenCV's 8-bit `cvtColor(RGB2HSV)` value channel
(`cv2` is an external library): `v = max(r, g, b)`. -/
def rgb2hsv_v (r g b : Nat) : Nat := max r (max g b)

/-- Modelled from OpenCV's 8-bit `cvtColor(RGB2HSV)` saturation channel:
`s = 0` when `v = 0`, else `round(255 * (v - min) / v)` (OpenCV computes
this with rounded fixed-point tables). -/
def rgb2hsv_s (r g b : Nat) : Nat :=
  let v := rgb2hsv_v r g b
  let d := v - min r (min g b)
  if v = 0 then 0 else (d * 255 * 2 + v) / (2 * v)

/-- Rounded signed division `round(x / d)` for `d > 0`, as in OpenCV's
`(num * table + (1 << 11)) >> 12` fixed-point hue computation. -/
def roundDiv (x : Int) (d : Int) : Int := Int.fdiv (2 * x + d) (2 * d)

/-- Modelled from OpenCV's 8-bit `cvtColor(RGB2HSV)` hue channel
(half-hue, range `[0, 180)`): `h = 0` when the channels are equal, else
`round(30 * (g - b) / diff)` shifted by 0/60/120 according to which
channel attains the maximum, plus 180 if negative. -/
def rgb2hsv_h (r g b : Nat) : Nat :=
  let v := rgb2hsv_v r g b
  let d : Int := (v : Int) - (min r (min g b) : Int)
  if d = 0 then 0
  else
    let raw : Int :=
      if v = r then roundDiv (30 * ((g : Int) - (b : Int))) d
      else if v = g then roundDiv (30 * ((b : Int) - (r : Int))) d + 60
      else roundDiv (30 * ((r : Int) - (g : Int))) d + 120
    if raw < 0 then (raw + 180).toNat else raw.toNat

/-- The branch structure of `ColorDetector._classify_color_simple` after
the RGB→HSV conversion (`color_detector.py` lines 283-316): grayscale
branch for `s < 30`, dark branch for `v < 60`, then the hue bands. -/
def classify_hsv (h s v : Nat) : String :=
  if s < 30 then
    if v < 50 then "black"
    else if v < 100 then "gray"
    else if v < 200 then "light_gray"
    else "white"
  else if v < 60 then "black"
  else if (0 ≤ h ∧ h ≤ 10) ∨ (170 ≤ h ∧ h ≤ 180) then "red"
  else if 10 < h ∧ h ≤ 25 then "orange"
  else if 25 < h ∧ h ≤ 35 then "yellow"
  else if 35 < h ∧ h ≤ 85 then "green"
  else if 85 < h ∧ h ≤ 95 then "cyan"
  else if 95 < h ∧ h ≤ 125 then "blue"
  else if 125 < h ∧ h ≤ 145 then "purple"
  else if 145 < h ∧ h < 170 then "pink"
  else "unknown"

/-- `ColorDetector._classify_color_simple`: reject out-of-range
components (the `c < 0` half of the source check cannot arise for `Nat`
components), convert to HSV, classify.  The source's `except` fallback to
`"unknown"` guards the `cv2` call, which the conversion model makes
total. -/
def classify_color_simple (r g b : Nat) : String :=
  if r > 255 ∨ g > 255 ∨ b > 255 then "unknown"
  else classify_hsv (rgb2hsv_h r g b) (rgb2hsv_s r g b) (rgb2hsv_v r g b)

/-- Modelled from the spec's words (§4.1, item 1), for comparison with
`classify_hsv`: the spec's six-bucket grayscale branch
`{black <40, dark_gray <80, gray <120, light_gray <160, silver <220, white ≥220}`. -/
def specGrayscaleName (v : Nat) : String :=
  if v < 40 then "black"
  else if v < 80 then "dark_gray"
  else if v < 120 then "gray"
  else if v < 160 then "light_gray"
  else if v < 220 then "silver"
  else "white"

/-- The method-priority table in `ColorDetector._combine_color_results`
(`method_priority = {kmeans:1, hsv_average:2, hsv_saturated:3,
colorthief:4, saturated:5, average:6}`, default 99). -/
def method_priority (m : String) : Nat :=
  if m = "kmeans" then 1
  else if m = "hsv_average" then 2
  else if m = "hsv_saturated" then 3
  else if m = "colorthief" then 4
  else if m = "saturated" then 5
  else if m = "average" then 6
  else 99

/-- The dedup loop of `_combine_color_results`: walk the concatenated
list, keep a sample iff its name is not in `seen_colors` and is not
`"unknown"`, adding kept names to `seen_colors`. -/
def dedupByName : List ColorSample → List String → List ColorSample
  | [], _ => []
  | c :: rest, seen =>
    if c.name ∈ seen ∨ c.name = "unknown" then dedupByName rest seen
    else c :: dedupByName rest (c.name :: seen)

/-- The sort key of `_combine_color_results`:
`(method_priority.get(method, 99), -percentage)`, compared
lexicographically (Python ascending sort on the tuple). -/
def combineLe (a b : ColorSample) : Bool :=
  method_priority a.method < method_priority b.method ∨
    (method_priority a.method = method_priority b.method ∧ b.percentage ≤ a.percentage)

/-- `ColorDetector._combine_color_results`: concatenate the three
strategies' outputs, deduplicate by name dropping `"unknown"`, then sort
by `(method priority, -percentage)`.  The `n_colors` argument is unused
in the source body and kept for signature fidelity. -/
def combine_color_results (colors1 colors2 colors3 : List ColorSample)
    (nColors : Nat) : List ColorSample :=
  let _ := nColors
  (dedupByName (colors1 ++ colors2 ++ colors3) []).mergeSort combineLe

/-- `ColorDetector._get_fallback_colors`. -/
def get_fallback_colors : List ColorSample :=
  [⟨[128, 128, 128], "gray", "fallback", 0⟩,
   ⟨[64, 64, 64], "dark_gray", "fallback", 0⟩]

/-- The value a strategy contributes after its surrounding
`try/except ... return []` (each strategy's exceptions are caught at or
inside its call and replaced by the empty list). -/
def stratResult : Except Unit (List ColorSample) → List ColorSample
  | .ok l => l
  | .error _ => []

/-- The bbox clamp of `get_colors_from_bbox` lines 46-48:
`x1 := max(0, x1)`, `y1 := max(0, y1)`, `x2 := min(w, x2)`,
`y2 := min(h, y2)`. -/
def clampBbox (hgt wid : Nat) (x1 y1 x2 y2 : Int) : Int × Int × Int × Int :=
  (max 0 x1, max 0 y1, min (wid : Int) x2, min (hgt : Int) y2)

/-- The body of `ColorDetector.get_colors_from_bbox` inside its outer
`try` (lines 41-83).  The image enters only through its dimensions; the
three strategies' outcomes are inputs (their own exceptions are already
caught per `stratResult`); `wrapperFault = true` models an exception
raised by the wrapper code itself (not by a strategy), which escapes to
the outer `except`. -/
def get_colors_body (hgt wid : Nat) (x1 y1 x2 y2 : Int) (nColors : Nat)
    (simpleRes colorthiefRes hsvRes : Except Unit (List ColorSample))
    (wrapperFault : Bool) : Except Unit (List ColorSample) :=
  if wrapperFault then .error ()
  else
    let (cx1, cy1, cx2, cy2) := clampBbox hgt wid x1 y1 x2 y2
    if cx2 ≤ cx1 ∨ cy2 ≤ cy1 then .ok []
    else if (cx2 - cx1) * (cy2 - cy1) = 0 then .ok []
    else
      let colorsSimple := stratResult simpleRes
      let colorsColorthief := stratResult colorthiefRes
      let colorsHsv := stratResult hsvRes
      .ok ((combine_color_results colorsSimple colorsColorthief colorsHsv
        nColors).take nColors)

/-- `ColorDetector.get_colors_from_bbox`: the body wrapped in the outer
`try/except` that converts any escaping exception into
`_get_fallback_colors()`, so the caller always receives a list. -/
def get_colors_from_bbox (hgt wid : Nat) (x1 y1 x2 y2 : Int) (nColors : Nat)
    (simpleRes colorthiefRes hsvRes : Except Unit (List ColorSample))
    (wrapperFault : Bool) : List ColorSample :=
  match get_colors_body hgt wid x1 y1 x2 y2 nColors
      simpleRes colorthiefRes hsvRes wrapperFault with
  | .ok l => l
  | .error _ => get_fallback_colors

/-- A detection dict (`{'class': ..., 'confidence': ..., 'bbox': ...,
'colors': ...}`, `outfit_analyzer.py` lines 138-142); scoring reads only
`class`. -/
structure Detection where
  cls : String
  confidence : ℚ
  bbox : Int × Int × Int × Int
  colors : List ColorSample
deriving DecidableEq, Repr

/-- `OCCASIONS` from `app/config.py`. -/
def OCCASIONS : List (String × String) :=
  [("job_interview", "professional job interview"),
   ("date_night", "romantic date night"),
   ("casual_hangout", "casual social gathering"),
   ("work_meeting", "business work meeting"),
   ("formal_event", "formal wedding or gala event"),
   ("beach_vacation", "beach or vacation setting"),
   ("night_out", "night out with friends"),
   ("business_casual", "business casual workplace")]

/-- The weight record shape of `SCORING_WEIGHTS` in `app/config.py`. -/
structure ScoringWeightsT where
  clip_contextual : ℚ
  color_harmony : ℚ
  item_completeness : ℚ
  style_coherence : ℚ
deriving DecidableEq, Repr

/-- `SCORING_WEIGHTS` from `app/config.py`. -/
def SCORING_WEIGHTS : ScoringWeightsT :=
  ⟨6/10, 2/10, 1/10, 1/10⟩

/-- The `scores` dict assembled by `_calculate_all_scores`. -/
structure Scores where
  clip_score : ℚ
  color_harmony : ℚ
  completeness : ℚ
  coherence : ℚ
deriving DecidableEq, Repr

/-- The four context-specific prompt strings of `_calculate_clip_score`
(lines 212-217), as functions of the occasion description. -/
def clip_prompts (occasionContext : String) : List String :=
  ["professional outfit suitable for " ++ occasionContext,
   "appropriate and stylish attire for " ++ occasionContext,
   "well-dressed and coordinated for " ++ occasionContext,
   "fashionable look perfect for " ++ occasionContext]

/-- `max` of a nonempty list of similarities, as Python's
`max(similarities)` (left fold). -/
def maxSim (s : ℚ) (rest : List ℚ) : ℚ := rest.foldl max s

/-- `OutfitAnalyzer._calculate_clip_score`.  `clipAvailable = false`
models `clip_model is None or clip_preprocess is None`; `simRun` is the
external similarity capability, `.error` modelling any exception inside
the `try` (both give the fixed 6.0 fallback).  On success the similarity
of each of the four prompts is taken, the best is mapped by
`(s + 1) / 2 * 10` and clamped.  The `[]` branch models Python's
`max([])` `ValueError`, caught by the same `except` (unreachable: there
are four prompts). -/
def calculate_clip_score (clipAvailable : Bool)
    (simRun : Except Unit (String → ℚ)) (occasionContext : String) : ℚ :=
  if !clipAvailable then 6
  else
    match simRun with
    | .error _ => 6
    | .ok sim =>
      match (clip_prompts occasionContext).map sim with
      | [] => 6
      | s :: rest => clamp ((maxSim s rest + 1) / 2 * 10)

/-- The neutral-color set of `_calculate_color_harmony_score`. -/
def neutral_colors : List String :=
  ["black", "white", "gray", "dark_gray", "light_gray", "beige"]

/-- The warm set of `_has_clashing_colors`. -/
def warm_colors : List String := ["red", "orange", "yellow", "pink"]

/-- The cool set of `_has_clashing_colors`. -/
def cool_colors : List String := ["blue", "green", "purple", "teal", "navy"]

/-- `OutfitAnalyzer._has_clashing_colors`: more than one warm name and
more than one cool name among the given names. -/
def has_clashing_colors (colorNames : List String) : Bool :=
  let warmCount := (colorNames.filter (fun c => c ∈ warm_colors)).length
  let coolCount := (colorNames.filter (fun c => c ∈ cool_colors)).length
  warmCount > 1 ∧ coolCount > 1

/-- `OutfitAnalyzer._calculate_color_harmony_score`: 5.0 for no colors,
else start at 7.0, penalise many distinct names
(`list(set(color_names))`, modelled by `List.dedup`), reward a neutral,
penalise a warm/cool clash, clamp. -/
def calculate_color_harmony_score (allColors : List ColorSample) : ℚ :=
  if allColors = [] then 5
  else
    let colorNames := allColors.map (fun c => c.name)
    let uniqueColors := colorNames.dedup
    let score : ℚ := 7
    let score := if uniqueColors.length > 4 then score - 2
      else if uniqueColors.length > 3 then score - 1 else score
    let score := if uniqueColors.any (fun c => c ∈ neutral_colors)
      then score + 1 else score
    let score := if has_clashing_colors uniqueColors then score - 3/2 else score
    clamp score

/-- `OutfitAnalyzer._calculate_completeness_score`: occasion-conditioned
additive rules over the detected classes, clamped. -/
def calculate_completeness_score (detections : List Detection)
    (occasion : String) : ℚ :=
  let items := detections.map (fun d => d.cls)
  let score : ℚ := 5
  let score :=
    if occasion ∈ ["job_interview", "work_meeting", "business_casual"] then
      let score := if "shirt" ∈ items ∧ ("pants" ∈ items ∨ "skirt" ∈ items)
        then score + 2 else score
      let score := if "jacket" ∈ items then score + 1 else score
      let score := if "shoe" ∈ items then score + 1 else score
      if "shorts" ∈ items then score - 2 else score
    else if occasion ∈ ["formal_event"] then
      let score := if "dress" ∈ items ∨ ("shirt" ∈ items ∧ "pants" ∈ items)
        then score + 2 else score
      let score := if "shoe" ∈ items then score + 1 else score
      if "shorts" ∈ items ∨ "sunglass" ∈ items then score - 1 else score
    else if occasion ∈ ["beach_vacation"] then
      let score := if "shorts" ∈ items ∨ "skirt" ∈ items ∨ "dress" ∈ items
        then score + 1 else score
      let score := if "sunglass" ∈ items then score + 1 else score
      if "jacket" ∈ items then score - 1 else score
    else
      let score := if items.length ≥ 2 then score + 1 else score
      if "shoe" ∈ items then score + 1/2 else score
  clamp score

/-- The formal-item set of `_calculate_coherence_score`. -/
def formal_items : List String := ["jacket", "shirt"]

/-- The casual-item set of `_calculate_coherence_score`. -/
def casual_items : List String := ["shorts", "sunglass"]

/-- `OutfitAnalyzer._calculate_coherence_score`: start at 7.0, penalise
formality mismatches by occasion, clamp. -/
def calculate_coherence_score (detections : List Detection)
    (occasion : String) : ℚ :=
  let items := detections.map (fun d => d.cls)
  let hasFormal := formal_items.any (fun i => i ∈ items)
  let hasCasual := casual_items.any (fun i => i ∈ items)
  let score : ℚ := 7
  let score :=
    if occasion ∈ ["job_interview", "work_meeting", "formal_event"] then
      if hasCasual ∧ hasFormal then score - 2
      else if hasCasual then score - 3
      else score
    else if occasion ∈ ["beach_vacation", "casual_hangout"] then
      if hasFormal ∧ ¬hasCasual then score - 1 else score
    else score
  clamp score

/-- `OutfitAnalyzer._calculate_final_score`: the `SCORING_WEIGHTS`-
weighted sum of the four sub-scores, clamped to [0, 10]. -/
def calculate_final_score (scores : Scores) : ℚ :=
  clamp (SCORING_WEIGHTS.clip_contextual * scores.clip_score +
    SCORING_WEIGHTS.color_harmony * scores.color_harmony +
    SCORING_WEIGHTS.item_completeness * scores.completeness +
    SCORING_WEIGHTS.style_coherence * scores.coherence)

/-- `OutfitAnalyzer._generate_feedback`: band the (unrounded) final score
at 8 / 6 / 4 into one of four templated sentences. -/
def generate_feedback (finalScore : ℚ) (occasionName : String) : String :=
  if finalScore ≥ 8 then
    "Excellent choice for " ++ occasionName ++ "! Very well put together."
  else if finalScore ≥ 6 then
    "Good outfit for " ++ occasionName ++ ". Well coordinated overall."
  else if finalScore ≥ 4 then
    "Decent look for " ++ occasionName ++ ", but could use some improvements."
  else
    "This outfit may not be the best choice for " ++ occasionName ++ "."

/-- Round-half-to-even to an integer, modelling Python 3 `round`. -/
def roundHalfEven (x : ℚ) : Int :=
  if x - ⌊x⌋ = 1/2 then (if Even ⌊x⌋ then ⌊x⌋ else ⌊x⌋ + 1) else round x

/-- Python's `round(x, 1)`: round-half-to-even at one decimal place. -/
def roundTo1 (x : ℚ) : ℚ := (roundHalfEven (x * 10) : ℚ) / 10

/-- The score/feedback part of the result assembled by
`OutfitAnalyzer.analyze_outfit` (lines 81-100): `style_score` is the
final score rounded to one decimal, while `contextual_feedback` is
generated from the unrounded final score. -/
def analyze_style_and_feedback (scores : Scores) (occasionName : String) :
    ℚ × String :=
  let finalScore := calculate_final_score scores
  (roundTo1 finalScore, generate_feedback finalScore occasionName)

/-- `0 ≤ x ∧ x ≤ 10`, the score range all sub-scores are clamped to. -/
def inScoreRange (x : ℚ) : Prop := 0 ≤ x ∧ x ≤ 10

theorem clamp_nonneg (x : ℚ) : 0 ≤ clamp x :=
  le_min (le_max_right x 0) (by norm_num)

theorem clamp_le_ten (x : ℚ) : clamp x ≤ 10 := min_le_right _ _

theorem clamp_mem_range (x : ℚ) : inScoreRange (clamp x) :=
  ⟨clamp_nonneg x, clamp_le_ten x⟩

theorem clamp_eq_self {x : ℚ} (h0 : 0 ≤ x) (h10 : x ≤ 10) : clamp x = x := by
  unfold clamp
  rw [max_eq_left h0, min_eq_left h10]

/-- C2 (corrected: code disagrees with the claim's thresholds).  The
grayscale branch of `_classify_color_simple` has four buckets with
thresholds 50/100/200, not the six buckets with thresholds
40/80/120/160/220 the claim states: at the achromatic pixel
`rgb = (45, 45, 45)` the saturation is below 30 and the value 45 lies in
the claim's `dark_gray` band `[40, 80)`, yet the code returns `"black"`
(and `"dark_gray"` is not a possible output of the branch at all). -/
theorem c2_grayscale_counterexample :
    rgb2hsv_s 45 45 45 < 30 ∧
    40 ≤ rgb2hsv_v 45 45 45 ∧ rgb2hsv_v 45 45 45 < 80 ∧
    specGrayscaleName (rgb2hsv_v 45 45 45) = "dark_gray" ∧
    classify_color_simple 45 45 45 = "black" ∧
    classify_color_simple 45 45 45 ≠ specGrayscaleName (rgb2hsv_v 45 45 45) := by
  decide

/-- C2 (amended): for every in-range RGB triple whose HSV saturation is
below 30, the classifier returns one of the four grayscale names,
selected solely by value thresholds: black for value < 50, gray for
value < 100, light_gray for value < 200, white for value ≥ 200. -/
theorem c2_grayscale_by_value (r g b : Nat)
    (hr : r ≤ 255) (hg : g ≤ 255) (hb : b ≤ 255)
    (hs : rgb2hsv_s r g b < 30) :
    classify_color_simple r g b ∈ ["black", "gray", "light_gray", "white"] ∧
    (classify_color_simple r g b = "black" ↔ rgb2hsv_v r g b < 50) ∧
    (classify_color_simple r g b = "gray" ↔
      50 ≤ rgb2hsv_v r g b ∧ rgb2hsv_v r g b < 100) ∧
    (classify_color_simple r g b = "light_gray" ↔
      100 ≤ rgb2hsv_v r g b ∧ rgb2hsv_v r g b < 200) ∧
    (classify_color_simple r g b = "white" ↔ 200 ≤ rgb2hsv_v r g b) := by
  unfold classify_color_simple classify_hsv
  rw [if_neg (by omega), if_pos hs]
  split_ifs with hv1 hv2 hv3
  · exact ⟨by decide, iff_of_true rfl hv1,
      iff_of_false (by decide) (by omega),
      iff_of_false (by decide) (by omega),
      iff_of_false (by decide) (by omega)⟩
  · exact ⟨by decide, iff_of_false (by decide) (by omega),
      iff_of_true rfl (by omega),
      iff_of_false (by decide) (by omega),
      iff_of_false (by decide) (by omega)⟩
  · exact ⟨by decide, iff_of_false (by decide) (by omega),
      iff_of_false (by decide) (by omega),
      iff_of_true rfl (by omega),
      iff_of_false (by decide) (by omega)⟩
  · exact ⟨by decide, iff_of_false (by decide) (by omega),
      iff_of_false (by decide) (by omega),
      iff_of_false (by decide) (by omega),
      iff_of_true rfl (by omega)⟩

theorem c2_grayscale_by_value_witness :
    classify_color_simple 128 128 128 ∈ ["black", "gray", "light_gray", "white"] :=
  (c2_grayscale_by_value 128 128 128 (by norm_num) (by norm_num) (by norm_num)
    (by decide)).1

/-- C5 (confirmed): for every HSV triple with `s ≥ 30` that escapes the
grayscale and dark branches (`v ≥ 60`; the saturated classifier has no
light branch), the hue bands are total over `h ∈ [0, 180]`: the result is
one of the eight hue names and never `"unknown"`, and both wrap-around
ends `h ≤ 10` and `h ≥ 170` classify as red. -/
theorem c5_hue_bands_total (h s v : Nat)
    (hh : h ≤ 180) (hs : 30 ≤ s) (hv : 60 ≤ v) :
    classify_hsv h s v ≠ "unknown" ∧
    classify_hsv h s v ∈
      ["red", "orange", "yellow", "green", "cyan", "blue", "purple", "pink"] ∧
    ((h ≤ 10 ∨ 170 ≤ h) → classify_hsv h s v = "red") := by
  unfold classify_hsv
  rw [if_neg (by omega), if_neg (by omega)]
  split_ifs with h1 h2 h3 h4 h5 h6 h7 h8
  · exact ⟨by decide, by decide, fun _ => rfl⟩
  · exact ⟨by decide, by decide, fun hr => absurd hr (by omega)⟩
  · exact ⟨by decide, by decide, fun hr => absurd hr (by omega)⟩
  · exact ⟨by decide, by decide, fun hr => absurd hr (by omega)⟩
  · exact ⟨by decide, by decide, fun hr => absurd hr (by omega)⟩
  · exact ⟨by decide, by decide, fun hr => absurd hr (by omega)⟩
  · exact ⟨by decide, by decide, fun hr => absurd hr (by omega)⟩
  · exact ⟨by decide, by decide, fun hr => absurd hr (by omega)⟩
  · exact absurd hh (by omega)

theorem c5_hue_bands_total_witness : classify_hsv 170 30 60 = "red" :=
  (c5_hue_bands_total 170 30 60 (by norm_num) (by norm_num) (by norm_num)).2.2
    (Or.inr (by norm_num))

/-- C6 (confirmed): a bbox that is degenerate after clamping to the
image bounds (`x2 ≤ x1` or `y2 ≤ y1`) yields the empty list; and no
exception ever reaches the caller — even an exception escaping the
wrapper body itself is caught by the outer handler and converted to the
normal fallback return value. -/
theorem c6_degenerate_bbox_empty (hgt wid : Nat) (x1 y1 x2 y2 : Int)
    (n : Nat) (s1 s2 s3 : Except Unit (List ColorSample)) (fault : Bool) :
    (fault = false →
      (min (wid : Int) x2 ≤ max 0 x1 ∨ min (hgt : Int) y2 ≤ max 0 y1) →
      get_colors_from_bbox hgt wid x1 y1 x2 y2 n s1 s2 s3 fault = []) ∧
    (fault = true →
      get_colors_from_bbox hgt wid x1 y1 x2 y2 n s1 s2 s3 fault =
        get_fallback_colors) := by
  constructor
  · intro hf hdeg
    subst hf
    simp only [get_colors_from_bbox, get_colors_body, clampBbox,
      Bool.false_eq_true, if_false]
    rw [if_pos hdeg]
  · intro hf
    subst hf
    simp [get_colors_from_bbox, get_colors_body]

theorem c6_degenerate_bbox_empty_witness :
    get_colors_from_bbox 10 10 5 5 2 2 2
      (Except.error ()) (Except.error ()) (Except.error ()) false = [] :=
  (c6_degenerate_bbox_empty 10 10 5 5 2 2 2
    (Except.error ()) (Except.error ()) (Except.error ()) false).1 rfl
    (Or.inl (by decide))

/-- C3 (corrected: the claim does not match the code).  Each extraction
strategy's exceptions are caught at its own call and replaced by `[]`, so
when every strategy fails the merge of three empty lists is returned —
the empty list, not the two-entry `gray`/`dark_gray` fallback.  Concrete
input: a 10×10 image, bbox (0,0,5,5), `n_colors = 2`, all three
strategies raising. -/
theorem c3_all_fail_counterexample :
    get_colors_from_bbox 10 10 0 0 5 5 2
      (Except.error ()) (Except.error ()) (Except.error ()) false = [] ∧
    get_colors_from_bbox 10 10 0 0 5 5 2
      (Except.error ()) (Except.error ()) (Except.error ()) false ≠
      get_fallback_colors := by
  constructor
  · simp +decide [get_colors_from_bbox, get_colors_body, clampBbox,
      stratResult, combine_color_results, dedupByName]
  · simp +decide [get_colors_from_bbox, get_colors_body, clampBbox,
      stratResult, combine_color_results, dedupByName, get_fallback_colors]

/-- C3 (amended): for a valid non-degenerate bbox, when every strategy
fails — contributes no color sample, whether by raising (caught, `[]`) or
by returning nothing — `get_colors_from_bbox` returns the empty list
without raising; the fixed `gray`/`dark_gray` fallback is produced only
when an exception escapes the wrapper body itself. -/
theorem c3_all_fail_empty (hgt wid : Nat) (x1 y1 x2 y2 : Int) (n : Nat)
    (s1 s2 s3 : Except Unit (List ColorSample))
    (hx : max 0 x1 < min (wid : Int) x2) (hy : max 0 y1 < min (hgt : Int) y2)
    (h1 : stratResult s1 = []) (h2 : stratResult s2 = [])
    (h3 : stratResult s3 = []) :
    get_colors_from_bbox hgt wid x1 y1 x2 y2 n s1 s2 s3 false = [] := by
  have hprod : (min (wid : Int) x2 - max 0 x1) * (min (hgt : Int) y2 - max 0 y1) ≠ 0 :=
    (mul_pos (by linarith) (by linarith)).ne'
  simp only [get_colors_from_bbox, get_colors_body, clampBbox,
    Bool.false_eq_true, if_false]
  rw [if_neg (by push_neg; exact ⟨hx, hy⟩),
    if_neg hprod, h1, h2, h3]
  simp [combine_color_results, dedupByName]

theorem c3_all_fail_empty_witness :
    get_colors_from_bbox 12 12 1 1 6 6 2
      (Except.ok []) (Except.error ()) (Except.ok []) false = [] :=
  c3_all_fail_empty 12 12 1 1 6 6 2
    (Except.ok []) (Except.error ()) (Except.ok [])
    (by decide) (by decide) rfl rfl rfl

/-- C9 (corrected: the claim's bound fails on the fallback path).  The
exception-fallback path returns the fixed two-entry list regardless of
`n_colors`, so with `n_colors = 1` the result has length 2 > 1.
Concrete input: an 8×8 image, bbox (0,0,4,4), `n_colors = 1`, and an
exception escaping the wrapper body. -/
theorem c9_length_counterexample :
    1 ≤ (1 : Nat) ∧
    (get_colors_from_bbox 8 8 0 0 4 4 1
      (Except.ok []) (Except.ok []) (Except.ok []) true).length = 2 ∧
    ¬ (get_colors_from_bbox 8 8 0 0 4 4 1
      (Except.ok []) (Except.ok []) (Except.ok []) true).length ≤ 1 := by
  refine ⟨le_rfl, ?_, ?_⟩ <;>
    simp [get_colors_from_bbox, get_colors_body, get_fallback_colors]

/-- C9 (amended): every non-fallback return path yields at most
`n_colors` samples, and the exception-fallback path yields exactly 2, so
the overall bound is `max n_colors 2` — the claimed `≤ n_colors` holds
whenever `n_colors ≥ 2` (in particular at the source's only call site,
`n_colors = 2`) but not for `n_colors = 1` on the fallback path. -/
theorem c9_length_le (hgt wid : Nat) (x1 y1 x2 y2 : Int) (n : Nat)
    (s1 s2 s3 : Except Unit (List ColorSample)) (fault : Bool) :
    (get_colors_from_bbox hgt wid x1 y1 x2 y2 n s1 s2 s3 fault).length ≤
      max n 2 ∧
    (fault = false →
      (get_colors_from_bbox hgt wid x1 y1 x2 y2 n s1 s2 s3 fault).length ≤ n) := by
  cases fault with
  | true =>
    constructor
    · simp [get_colors_from_bbox, get_colors_body, get_fallback_colors]
    · intro hf
      exact absurd hf (by simp)
  | false =>
    have hlen : (get_colors_from_bbox hgt wid x1 y1 x2 y2 n s1 s2 s3
        false).length ≤ n := by
      simp only [get_colors_from_bbox, get_colors_body, clampBbox,
        Bool.false_eq_true, if_false]
      split_ifs <;> simp [List.length_take]
    exact ⟨le_trans hlen (le_max_left n 2), fun _ => hlen⟩

theorem c9_length_le_witness :
    (get_colors_from_bbox 8 8 0 0 4 4 1
      (Except.ok []) (Except.ok []) (Except.ok []) false).length ≤ 1 :=
  (c9_length_le 8 8 0 0 4 4 1
    (Except.ok []) (Except.ok []) (Except.ok []) false).2 rfl

/-- A sample survives the dedup pass iff its name is unseen, is not
`"unknown"`, and the sample is the first occurrence of its name. -/
theorem mem_dedupByName {l : List ColorSample} {seen : List String}
    {c : ColorSample} :
    c ∈ dedupByName l seen ↔
      c.name ∉ seen ∧ c.name ≠ "unknown" ∧
        l.find? (fun s => s.name == c.name) = some c := by
  induction l generalizing seen with
  | nil => simp [dedupByName]
  | cons hd tl ih =>
    by_cases hname : hd.name = c.name
    · by_cases hskip : hd.name ∈ seen ∨ hd.name = "unknown"
      · simp only [dedupByName, if_pos hskip]
        rw [ih]
        constructor
        · rintro ⟨h1, h2, -⟩
          rcases hskip with hin | hunk
          · exact absurd (hname ▸ hin) h1
          · exact absurd (hname ▸ hunk) h2
        · rintro ⟨h1, h2, -⟩
          rcases hskip with hin | hunk
          · exact absurd (hname ▸ hin) h1
          · exact absurd (hname ▸ hunk) h2
      · have hskip' := hskip
        push_neg at hskip'
        simp only [dedupByName, if_neg hskip]
        rw [List.find?_cons_of_pos _ (by simp [hname]), List.mem_cons, ih]
        constructor
        · rintro (rfl | ⟨hne, h2, h3⟩)
          · exact ⟨hskip'.1, hskip'.2, rfl⟩
          · exact absurd (by rw [← hname]; exact List.mem_cons_self _ _) hne
        · rintro ⟨h1, h2, h3⟩
          exact Or.inl (Option.some.inj h3).symm
    · by_cases hskip : hd.name ∈ seen ∨ hd.name = "unknown"
      · simp only [dedupByName, if_pos hskip]
        rw [ih, List.find?_cons_of_neg _ (by simp [hname])]
      · simp only [dedupByName, if_neg hskip]
        rw [List.find?_cons_of_neg _ (by simp [hname]), List.mem_cons, ih]
        constructor
        · rintro (rfl | ⟨hne, h2, h3⟩)
          · exact absurd rfl hname
          · exact ⟨fun hmem => hne (List.mem_cons_of_mem _ hmem), h2, h3⟩
        · rintro ⟨h1, h2, h3⟩
          refine Or.inr ⟨?_, h2, h3⟩
          intro hmem
          rcases List.mem_cons.mp hmem with he | hin
          · exact hname he.symm
          · exact h1 hin

/-- The dedup pass emits pairwise-distinct names, none of them in
`seen`. -/
theorem dedupByName_names_nodup (l : List ColorSample) (seen : List String) :
    ((dedupByName l seen).map (fun c => c.name)).Nodup ∧
      ∀ c ∈ dedupByName l seen, c.name ∉ seen := by
  induction l generalizing seen with
  | nil => simp [dedupByName]
  | cons hd tl ih =>
    by_cases hskip : hd.name ∈ seen ∨ hd.name = "unknown"
    · simp only [dedupByName, if_pos hskip]
      exact ih seen
    · simp only [dedupByName, if_neg hskip]
      obtain ⟨ihn, ihs⟩ := ih (hd.name :: seen)
      push_neg at hskip
      constructor
      · simp only [List.map_cons, List.nodup_cons]
        refine ⟨?_, ihn⟩
        intro hmem
        rcases List.mem_map.mp hmem with ⟨c, hc, hcn⟩
        exact (ihs c hc) (by rw [hcn]; exact List.mem_cons_self _ _)
      · intro c hc
        rcases List.mem_cons.mp hc with rfl | hmem
        · exact hskip.1
        · intro hin
          exact (ihs c hmem) (List.mem_cons_of_mem _ hin)

/-- The lexicographic sort key `(method priority, -percentage)` is
transitive. -/
theorem combineLe_trans (a b c : ColorSample) :
    combineLe a b → combineLe b c → combineLe a c := by
  simp only [combineLe, decide_eq_true_eq]
  rintro (hab | ⟨hab, hab'⟩) (hbc | ⟨hbc, hbc'⟩)
  · exact Or.inl (lt_trans hab hbc)
  · exact Or.inl (hbc ▸ hab)
  · exact Or.inl (hab ▸ hbc)
  · exact Or.inr ⟨hab.trans hbc, le_trans hbc' hab'⟩

/-- The lexicographic sort key is total. -/
theorem combineLe_total (a b : ColorSample) :
    combineLe a b || combineLe b a := by
  simp only [combineLe, Bool.or_eq_true, decide_eq_true_eq]
  rcases lt_trichotomy (method_priority a.method) (method_priority b.method)
    with h | h | h
  · exact Or.inl (Or.inl h)
  · rcases le_total b.percentage a.percentage with hp | hp
    · exact Or.inl (Or.inr ⟨h, hp⟩)
    · exact Or.inr (Or.inr ⟨h.symm, hp⟩)
  · exact Or.inr (Or.inl h)

/-- C4 (confirmed): the merge step drops every `"unknown"` sample,
deduplicates by name with the first occurrence of the concatenation
winning (each survivor is the `find?`-first sample of its name, and the
surviving names are pairwise distinct), and orders survivors so that
k-means results precede colorthief results, which precede simple-average
results, with ties within one method broken by descending percentage. -/
theorem c4_merge_dedup_priority (l1 l2 l3 : List ColorSample) (n : Nat) :
    (∀ c ∈ combine_color_results l1 l2 l3 n, c.name ≠ "unknown") ∧
    ((combine_color_results l1 l2 l3 n).map (fun c => c.name)).Nodup ∧
    (∀ c, c ∈ combine_color_results l1 l2 l3 n ↔
      c.name ≠ "unknown" ∧
        (l1 ++ l2 ++ l3).find? (fun s => s.name == c.name) = some c) ∧
    (combine_color_results l1 l2 l3 n).Pairwise (fun a b =>
      (a.method = "colorthief" → b.method ≠ "kmeans") ∧
      (a.method = "average" → b.method ≠ "kmeans" ∧ b.method ≠ "colorthief") ∧
      (a.method = b.method → b.percentage ≤ a.percentage)) := by
  have hperm : (combine_color_results l1 l2 l3 n).Perm
      (dedupByName (l1 ++ l2 ++ l3) []) := by
    unfold combine_color_results
    exact List.mergeSort_perm _ _
  have hmem : ∀ c, c ∈ combine_color_results l1 l2 l3 n ↔
      c.name ≠ "unknown" ∧
        (l1 ++ l2 ++ l3).find? (fun s => s.name == c.name) = some c := by
    intro c
    rw [hperm.mem_iff, mem_dedupByName]
    simp
  refine ⟨fun c hc => ((hmem c).mp hc).1, ?_, hmem, ?_⟩
  · exact ((hperm.map (fun c => c.name)).nodup_iff).mpr
      (dedupByName_names_nodup (l1 ++ l2 ++ l3) []).1
  · have hsorted : (combine_color_results l1 l2 l3 n).Pairwise
        (fun a b => combineLe a b) := by
      unfold combine_color_results
      exact List.sorted_mergeSort combineLe_trans combineLe_total _
    refine hsorted.imp (fun {a b} hab => ?_)
    simp only [combineLe, decide_eq_true_eq] at hab
    have hpc : method_priority "colorthief" = 4 := rfl
    have hpk : method_priority "kmeans" = 1 := rfl
    have hpa : method_priority "average" = 6 := rfl
    refine ⟨?_, ?_, ?_⟩
    · intro ha hbk
      rw [ha, hbk, hpc, hpk] at hab
      rcases hab with hlt | ⟨heq, -⟩ <;> omega
    · intro ha
      constructor
      · intro hbk
        rw [ha, hbk, hpa, hpk] at hab
        rcases hab with hlt | ⟨heq, -⟩ <;> omega
      · intro hbc
        rw [ha, hbc, hpa, hpc] at hab
        rcases hab with hlt | ⟨heq, -⟩ <;> omega
    · intro hm
      rcases hab with hlt | ⟨-, hle⟩
      · rw [hm] at hlt
        exact absurd hlt (lt_irrefl _)
      · exact hle

theorem c4_merge_dedup_priority_witness :
    (⟨[255, 0, 0], "red", "kmeans", 60⟩ : ColorSample) ∈
      combine_color_results [⟨[255, 0, 0], "red", "kmeans", 60⟩] [] [] 2 :=
  ((c4_merge_dedup_priority [⟨[255, 0, 0], "red", "kmeans", 60⟩] [] [] 2).2.2.1
    ⟨[255, 0, 0], "red", "kmeans", 60⟩).mpr ⟨by decide, by decide⟩

/-- C7 (confirmed): the harmony sub-score is 5.0 for no colors;
otherwise it equals 7.0, minus 2.0 when more than 4 distinct names (1.0
when more than 3), plus 1.0 when a neutral color is present, minus 1.5
when more than one warm and more than one cool name occur among the
distinct names, clamped to [0, 10]; in particular the distinct colors
red, blue, green, purple score exactly 6.0. -/
theorem c7_harmony_formula :
    (∀ allColors : List ColorSample, allColors = [] →
      calculate_color_harmony_score allColors = 5) ∧
    (∀ allColors : List ColorSample, allColors ≠ [] →
      calculate_color_harmony_score allColors =
        clamp ((7 : ℚ) -
          (if 4 < (allColors.map (fun c => c.name)).toFinset.card then 2
           else if 3 < (allColors.map (fun c => c.name)).toFinset.card then 1
           else 0) +
          (if ∃ c ∈ allColors, c.name ∈ neutral_colors then 1 else 0) -
          (if 1 < ((allColors.map (fun c => c.name)).toFinset.filter
                (fun m => m ∈ warm_colors)).card ∧
              1 < ((allColors.map (fun c => c.name)).toFinset.filter
                (fun m => m ∈ cool_colors)).card
           then 3/2 else 0))) ∧
    calculate_color_harmony_score
      [⟨[200, 0, 0], "red", "kmeans", 0⟩, ⟨[0, 0, 200], "blue", "kmeans", 0⟩,
       ⟨[0, 200, 0], "green", "kmeans", 0⟩,
       ⟨[120, 0, 120], "purple", "kmeans", 0⟩] = 6 := by
  have key : ∀ allColors : List ColorSample, allColors ≠ [] →
      calculate_color_harmony_score allColors =
        clamp ((7 : ℚ) -
          (if 4 < (allColors.map (fun c => c.name)).toFinset.card then 2
           else if 3 < (allColors.map (fun c => c.name)).toFinset.card then 1
           else 0) +
          (if ∃ c ∈ allColors, c.name ∈ neutral_colors then 1 else 0) -
          (if 1 < ((allColors.map (fun c => c.name)).toFinset.filter
                (fun m => m ∈ warm_colors)).card ∧
              1 < ((allColors.map (fun c => c.name)).toFinset.filter
                (fun m => m ∈ cool_colors)).card
           then 3/2 else 0)) := by
    intro l hne
    have hdt : (l.map (fun c => c.name)).dedup.toFinset =
        (l.map (fun c => c.name)).toFinset := by
      ext a
      simp [List.mem_toFinset, List.mem_dedup]
    have hcard : (l.map (fun c => c.name)).dedup.length =
        (l.map (fun c => c.name)).toFinset.card :=
      (List.card_toFinset _).symm
    have hwarm : ((l.map (fun c => c.name)).dedup.filter
          (fun m => m ∈ warm_colors)).length =
        ((l.map (fun c => c.name)).toFinset.filter
          (fun m => m ∈ warm_colors)).card := by
      rw [← List.toFinset_card_of_nodup ((List.nodup_dedup _).filter _)]
      congr 1
      ext a
      simp [List.mem_filter, List.mem_dedup]
    have hcool : ((l.map (fun c => c.name)).dedup.filter
          (fun m => m ∈ cool_colors)).length =
        ((l.map (fun c => c.name)).toFinset.filter
          (fun m => m ∈ cool_colors)).card := by
      rw [← List.toFinset_card_of_nodup ((List.nodup_dedup _).filter _)]
      congr 1
      ext a
      simp [List.mem_filter, List.mem_dedup]
    have hneu : ((l.map (fun c => c.name)).dedup.any
          (fun m => m ∈ neutral_colors) = true) ↔
        ∃ c ∈ l, c.name ∈ neutral_colors := by
      simp [List.any_eq_true, List.mem_dedup]
    have hclash : (has_clashing_colors (l.map (fun c => c.name)).dedup = true) ↔
        (1 < ((l.map (fun c => c.name)).toFinset.filter
            (fun m => m ∈ warm_colors)).card ∧
          1 < ((l.map (fun c => c.name)).toFinset.filter
            (fun m => m ∈ cool_colors)).card) := by
      simp only [has_clashing_colors, decide_eq_true_eq, gt_iff_lt, hwarm, hcool]
    unfold calculate_color_harmony_score
    rw [if_neg hne]
    simp only [hcard, hneu, hclash]
    split_ifs <;> norm_num
  refine ⟨?_, key, ?_⟩
  · intro l hl
    rw [hl]
    rfl
  · rw [key _ (by simp)]
    have hA : ¬(4 < (List.map (fun c => c.name)
        [⟨[200, 0, 0], "red", "kmeans", 0⟩, ⟨[0, 0, 200], "blue", "kmeans", 0⟩,
         ⟨[0, 200, 0], "green", "kmeans", 0⟩,
         (⟨[120, 0, 120], "purple", "kmeans", 0⟩ : ColorSample)]).toFinset.card) := by
      decide
    have hB : 3 < (List.map (fun c => c.name)
        [⟨[200, 0, 0], "red", "kmeans", 0⟩, ⟨[0, 0, 200], "blue", "kmeans", 0⟩,
         ⟨[0, 200, 0], "green", "kmeans", 0⟩,
         (⟨[120, 0, 120], "purple", "kmeans", 0⟩ : ColorSample)]).toFinset.card := by
      decide
    have hC : ¬∃ c ∈ [⟨[200, 0, 0], "red", "kmeans", 0⟩,
        ⟨[0, 0, 200], "blue", "kmeans", 0⟩, ⟨[0, 200, 0], "green", "kmeans", 0⟩,
        (⟨[120, 0, 120], "purple", "kmeans", 0⟩ : ColorSample)],
        c.name ∈ neutral_colors := by
      simp [neutral_colors]
    have hD : ¬(1 < ((List.map (fun c => c.name)
          [⟨[200, 0, 0], "red", "kmeans", 0⟩, ⟨[0, 0, 200], "blue", "kmeans", 0⟩,
           ⟨[0, 200, 0], "green", "kmeans", 0⟩,
           (⟨[120, 0, 120], "purple", "kmeans", 0⟩ : ColorSample)]).toFinset.filter
            (fun m => m ∈ warm_colors)).card ∧
        1 < ((List.map (fun c => c.name)
          [⟨[200, 0, 0], "red", "kmeans", 0⟩, ⟨[0, 0, 200], "blue", "kmeans", 0⟩,
           ⟨[0, 200, 0], "green", "kmeans", 0⟩,
           (⟨[120, 0, 120], "purple", "kmeans", 0⟩ : ColorSample)]).toFinset.filter
            (fun m => m ∈ cool_colors)).card) := by
      decide
    rw [if_neg hA, if_pos hB, if_neg hC, if_neg hD]
    rw [clamp_eq_self (by norm_num) (by norm_num)]
    norm_num

theorem c7_harmony_formula_witness :
    calculate_color_harmony_score
      [⟨[10, 10, 10], "black", "kmeans", 80⟩] = 8 := by
  rw [(c7_harmony_formula).2.1 [⟨[10, 10, 10], "black", "kmeans", 80⟩] (by simp)]
  have hA : ¬(4 < (List.map (fun c => c.name)
      [(⟨[10, 10, 10], "black", "kmeans", 80⟩ : ColorSample)]).toFinset.card) := by
    decide
  have hB : ¬(3 < (List.map (fun c => c.name)
      [(⟨[10, 10, 10], "black", "kmeans", 80⟩ : ColorSample)]).toFinset.card) := by
    decide
  have hC : ∃ c ∈ [(⟨[10, 10, 10], "black", "kmeans", 80⟩ : ColorSample)],
      c.name ∈ neutral_colors := by
    simp [neutral_colors]
  have hD : ¬(1 < ((List.map (fun c => c.name)
        [(⟨[10, 10, 10], "black", "kmeans", 80⟩ : ColorSample)]).toFinset.filter
          (fun m => m ∈ warm_colors)).card ∧
      1 < ((List.map (fun c => c.name)
        [(⟨[10, 10, 10], "black", "kmeans", 80⟩ : ColorSample)]).toFinset.filter
          (fun m => m ∈ cool_colors)).card) := by
    decide
  rw [if_neg hA, if_neg hB, if_pos hC, if_neg hD]
  rw [clamp_eq_self (by norm_num) (by norm_num)]
  norm_num

/-- C8 (confirmed): the contextual sub-score is the fixed fallback 6.0
when the similarity backend is unavailable or when computing the
similarities raises, never propagating an exception; otherwise it is the
maximum similarity over the four occasion-conditioned prompts mapped by
`(s + 1) / 2 * 10` and clamped to [0, 10] (and it always lies in
[0, 10]). -/
theorem c8_clip_score_fallback :
    (∀ (simRun : Except Unit (String → ℚ)) (occ : String),
      calculate_clip_score false simRun occ = 6) ∧
    (∀ occ : String, calculate_clip_score true (Except.error ()) occ = 6) ∧
    (∀ (sim : String → ℚ) (occ : String),
      calculate_clip_score true (Except.ok sim) occ =
        clamp ((max (max (max
          (sim ("professional outfit suitable for " ++ occ))
          (sim ("appropriate and stylish attire for " ++ occ)))
          (sim ("well-dressed and coordinated for " ++ occ)))
          (sim ("fashionable look perfect for " ++ occ)) + 1) / 2 * 10)) ∧
    (∀ (avail : Bool) (simRun : Except Unit (String → ℚ)) (occ : String),
      inScoreRange (calculate_clip_score avail simRun occ)) := by
  refine ⟨fun simRun occ => rfl, fun occ => rfl, ?_, ?_⟩
  · intro sim occ
    simp [calculate_clip_score, clip_prompts, maxSim]
  · intro avail simRun occ
    rcases avail with _ | _
    · rw [show calculate_clip_score false simRun occ = 6 from rfl]
      exact ⟨by norm_num, by norm_num⟩
    · rcases simRun with e | sim
      · rw [show calculate_clip_score true (Except.error e) occ = 6 from rfl]
        exact ⟨by norm_num, by norm_num⟩
      · simp only [calculate_clip_score, Bool.not_true, Bool.false_eq_true,
          if_false, clip_prompts, List.map_cons, List.map_nil]
        exact clamp_mem_range _

/-- C1 (confirmed): every sub-score function returns a value in [0, 10];
the final score is the weighted sum with the fixed weights
0.6/0.2/0.1/0.1 clamped to [0, 10]; on in-range sub-scores the clamp is
the identity, so varying any single sub-score by Δ changes the final
score by exactly its weight times Δ. -/
theorem c1_final_score_weighted :
    (∀ allColors, inScoreRange (calculate_color_harmony_score allColors)) ∧
    (∀ (avail : Bool) (simRun : Except Unit (String → ℚ)) (occ : String),
      inScoreRange (calculate_clip_score avail simRun occ)) ∧
    (∀ dets occ, inScoreRange (calculate_completeness_score dets occ)) ∧
    (∀ dets occ, inScoreRange (calculate_coherence_score dets occ)) ∧
    (∀ s : Scores, calculate_final_score s =
      clamp (6/10 * s.clip_score + 2/10 * s.color_harmony +
        1/10 * s.completeness + 1/10 * s.coherence)) ∧
    (∀ s : Scores, inScoreRange s.clip_score → inScoreRange s.color_harmony →
      inScoreRange s.completeness → inScoreRange s.coherence →
      calculate_final_score s =
        6/10 * s.clip_score + 2/10 * s.color_harmony +
          1/10 * s.completeness + 1/10 * s.coherence) ∧
    (∀ x x' b d e : ℚ, inScoreRange x → inScoreRange x' → inScoreRange b →
      inScoreRange d → inScoreRange e →
      calculate_final_score ⟨x', b, d, e⟩ - calculate_final_score ⟨x, b, d, e⟩ =
        6/10 * (x' - x)) ∧
    (∀ a x x' d e : ℚ, inScoreRange a → inScoreRange x → inScoreRange x' →
      inScoreRange d → inScoreRange e →
      calculate_final_score ⟨a, x', d, e⟩ - calculate_final_score ⟨a, x, d, e⟩ =
        2/10 * (x' - x)) ∧
    (∀ a b x x' e : ℚ, inScoreRange a → inScoreRange b → inScoreRange x →
      inScoreRange x' → inScoreRange e →
      calculate_final_score ⟨a, b, x', e⟩ - calculate_final_score ⟨a, b, x, e⟩ =
        1/10 * (x' - x)) ∧
    (∀ a b d x x' : ℚ, inScoreRange a → inScoreRange b → inScoreRange d →
      inScoreRange x → inScoreRange x' →
      calculate_final_score ⟨a, b, d, x'⟩ - calculate_final_score ⟨a, b, d, x⟩ =
        1/10 * (x' - x)) := by
  have hfs : ∀ s : Scores, calculate_final_score s =
      clamp (6/10 * s.clip_score + 2/10 * s.color_harmony +
        1/10 * s.completeness + 1/10 * s.coherence) := fun s => rfl
  have hid : ∀ s : Scores, inScoreRange s.clip_score →
      inScoreRange s.color_harmony → inScoreRange s.completeness →
      inScoreRange s.coherence →
      calculate_final_score s =
        6/10 * s.clip_score + 2/10 * s.color_harmony +
          1/10 * s.completeness + 1/10 * s.coherence := by
    rintro s ⟨h1, h2⟩ ⟨h3, h4⟩ ⟨h5, h6⟩ ⟨h7, h8⟩
    rw [hfs]
    exact clamp_eq_self (by linarith) (by linarith)
  refine ⟨?_, ?_, ?_, ?_, hfs, hid, ?_, ?_, ?_, ?_⟩
  · intro l
    unfold calculate_color_harmony_score
    split
    · exact ⟨by norm_num, by norm_num⟩
    · exact clamp_mem_range _
  · intro avail simRun occ
    rcases avail with _ | _
    · rw [show calculate_clip_score false simRun occ = 6 from rfl]
      exact ⟨by norm_num, by norm_num⟩
    · rcases simRun with e | sim
      · rw [show calculate_clip_score true (Except.error e) occ = 6 from rfl]
        exact ⟨by norm_num, by norm_num⟩
      · simp only [calculate_clip_score, Bool.not_true, Bool.false_eq_true,
          if_false, clip_prompts, List.map_cons, List.map_nil]
        exact clamp_mem_range _
  · intro dets occ
    unfold calculate_completeness_score
    exact clamp_mem_range _
  · intro dets occ
    unfold calculate_coherence_score
    exact clamp_mem_range _
  · intro x x' b d e hx hx' hb hd he
    rw [hid ⟨x', b, d, e⟩ hx' hb hd he, hid ⟨x, b, d, e⟩ hx hb hd he]
    ring
  · intro a x x' d e ha hx hx' hd he
    rw [hid ⟨a, x', d, e⟩ ha hx' hd he, hid ⟨a, x, d, e⟩ ha hx hd he]
    ring
  · intro a b x x' e ha hb hx hx' he
    rw [hid ⟨a, b, x', e⟩ ha hb hx' he, hid ⟨a, b, x, e⟩ ha hb hx he]
    ring
  · intro a b d x x' ha hb hd hx hx'
    rw [hid ⟨a, b, d, x'⟩ ha hb hd hx', hid ⟨a, b, d, x⟩ ha hb hd hx]
    ring

theorem c1_final_score_weighted_witness :
    calculate_final_score ⟨9, 8, 8, 38/5⟩ - calculate_final_score ⟨8, 8, 8, 38/5⟩ =
      6/10 * (9 - 8) :=
  c1_final_score_weighted.2.2.2.2.2.2.1 8 9 8 8 (38/5)
    (by constructor <;> norm_num) (by constructor <;> norm_num)
    (by constructor <;> norm_num) (by constructor <;> norm_num)
    (by constructor <;> norm_num)

/-- C10 (confirmed): feedback is banded on the unrounded final score
while the reported `style_score` is the final score rounded to one
decimal; at the concrete sub-scores (8, 8, 8, 7.6) the final score is
7.96, so the assembled result pairs `style_score = 8.0` with the
`≥ 6` band sentence, which differs from the `≥ 8` band sentence the
displayed 8.0 would select. -/
theorem c10_rounding_band_mismatch :
    ("work_meeting", "business work meeting") ∈ OCCASIONS ∧
    calculate_final_score ⟨8, 8, 8, 38/5⟩ = 199/25 ∧
    analyze_style_and_feedback ⟨8, 8, 8, 38/5⟩ "business work meeting" =
      (8, "Good outfit for business work meeting. Well coordinated overall.") ∧
    generate_feedback 8 "business work meeting" =
      "Excellent choice for business work meeting! Very well put together." ∧
    generate_feedback (199/25) "business work meeting" ≠
      generate_feedback (roundTo1 (199/25)) "business work meeting" := by
  have hfs : calculate_final_score ⟨8, 8, 8, 38/5⟩ = 199/25 := by
    have h0 : calculate_final_score ⟨8, 8, 8, 38/5⟩ =
        clamp (6/10 * 8 + 2/10 * 8 + 1/10 * 8 + 1/10 * (38/5)) := rfl
    rw [h0, clamp_eq_self (by norm_num) (by norm_num)]
    norm_num
  have hround : roundTo1 (199/25 : ℚ) = 8 := by
    unfold roundTo1 roundHalfEven
    norm_num [round_eq]
  have hlow : generate_feedback (199/25) "business work meeting" =
      "Good outfit for business work meeting. Well coordinated overall." := by
    unfold generate_feedback
    rw [if_neg (by norm_num), if_pos (by norm_num)]
    rfl
  have hhigh : generate_feedback 8 "business work meeting" =
      "Excellent choice for business work meeting! Very well put together." := by
    unfold generate_feedback
    rw [if_pos (by norm_num)]
    rfl
  refine ⟨by decide, hfs, ?_, hhigh, ?_⟩
  · unfold analyze_style_and_feedback
    rw [hfs]
    dsimp only
    rw [hround, hlow]
  · rw [hround, hlow, hhigh]
    decide

end OutfitEval
